import Mathlib

/-!
Verification of the submission acceptance pipeline and the story endpoints
of the "Strangers with Stories" service (`main.py`, `database.py`,
`models.py`).

Texts are modelled as `List Char`, mirroring Python strings as sequences of
Unicode code points.

On numeric thresholds: the source compares an integer count against
`len * 0.3` (resp. `len * 0.2`) computed in IEEE-754 double arithmetic.
For every natural `n`, the rounded double `fl(n * 0.3)` equals `3*n/10`
exactly when `10 ∣ n` (the relative error of the double constant `0.3` is
below the half-ulp at every such product, so the product rounds back to the
integer), and otherwise differs from the rational `3*n/10` by far less than
`0.1`, while `3*n/10` is then at least `0.1` away from every integer.
Hence, for every integer `k`, the Python comparison `k > n * 0.3` agrees
with the exact rational comparison `10 * k > 3 * n`; likewise
`k > n * 0.2` agrees with `5 * k > n`.  The embedding therefore uses the
exact integer comparisons.

On character classes: `pyIsSpace`, `alnumRanges`/`pyIsAlnum` and
`vowelContribution` are complete encodings of the whitespace, `isalnum`
and lowered-vowel behavior of Python strings (Unicode 14.0 database as
shipped with CPython 3.11), valid over the whole code-point space, not a
script-specific fragment: the discussions of fidelity sit on the
individual definitions.
-/

set_option maxRecDepth 100000

set_option maxHeartbeats 2000000

namespace SWS

/-- The exact whitespace classifier behind Python's `str.strip()` and
`str.split()`: the 29 Unicode code points CPython treats as whitespace
(Unicode 14.0 database, CPython 3.11) — TAB through CR (U+0009–U+000D),
the C0 separators FS/GS/RS/US (U+001C–U+001F), SPACE, NEL (U+0085),
NO-BREAK SPACE (U+00A0), OGHAM SPACE MARK (U+1680), EN QUAD through HAIR
SPACE (U+2000–U+200A), LINE SEPARATOR (U+2028), PARAGRAPH SEPARATOR
(U+2029), NARROW NO-BREAK SPACE (U+202F), MEDIUM MATHEMATICAL SPACE
(U+205F) and IDEOGRAPHIC SPACE (U+3000). -/
def pyIsSpace (c : Char) : Bool :=
  (0x9 ≤ c.toNat && c.toNat ≤ 0xd) ||
  (0x1c ≤ c.toNat && c.toNat ≤ 0x20) ||
  c.toNat = 0x85 || c.toNat = 0xa0 || c.toNat = 0x1680 ||
  (0x2000 ≤ c.toNat && c.toNat ≤ 0x200a) ||
  c.toNat = 0x2028 || c.toNat = 0x2029 || c.toNat = 0x202f ||
  c.toNat = 0x205f || c.toNat = 0x3000

/-- Python `text.strip()`: remove leading and trailing whitespace. -/
def pyStrip (t : List Char) : List Char :=
  ((t.dropWhile pyIsSpace).reverse.dropWhile pyIsSpace).reverse

/-- Helper for `pySplit`: walks the text accumulating the current word
(in reverse); whitespace flushes the accumulated word, and empty words are
discarded, exactly as Python's `str.split()` with no argument. -/
def splitAux : List Char → List Char → List (List Char)
  | [], [] => []
  | [], acc => [acc.reverse]
  | c :: cs, acc =>
    if pyIsSpace c then
      match acc with
      | [] => splitAux cs []
      | _ => acc.reverse :: splitAux cs []
    else splitAux cs (c :: acc)

/-- Python `text.split()` with no argument: split on runs of whitespace,
discarding empty pieces. -/
def pySplit (t : List Char) : List (List Char) := splitAux t []

/-- Complete contiguous-range decomposition of the set of Unicode code
points accepted by Python's `str.isalnum` (Unicode 14.0 database,
CPython 3.11): all 733 ranges of Letter and Number category characters,
covering every script — Latin, Greek, Cyrillic, Arabic, Hebrew,
Devanagari, CJK, fullwidth forms, all Unicode digit and numeric forms,
and so on. -/
def alnumRanges : List (Nat × Nat) := [
  (0x30, 0x39), (0x41, 0x5a), (0x61, 0x7a), (0xaa, 0xaa),
  (0xb2, 0xb3), (0xb5, 0xb5), (0xb9, 0xba), (0xbc, 0xbe),
  (0xc0, 0xd6), (0xd8, 0xf6), (0xf8, 0x2c1), (0x2c6, 0x2d1),
  (0x2e0, 0x2e4), (0x2ec, 0x2ec), (0x2ee, 0x2ee), (0x370, 0x374),
  (0x376, 0x377), (0x37a, 0x37d), (0x37f, 0x37f), (0x386, 0x386),
  (0x388, 0x38a), (0x38c, 0x38c), (0x38e, 0x3a1), (0x3a3, 0x3f5),
  (0x3f7, 0x481), (0x48a, 0x52f), (0x531, 0x556), (0x559, 0x559),
  (0x560, 0x588), (0x5d0, 0x5ea), (0x5ef, 0x5f2), (0x620, 0x64a),
  (0x660, 0x669), (0x66e, 0x66f), (0x671, 0x6d3), (0x6d5, 0x6d5),
  (0x6e5, 0x6e6), (0x6ee, 0x6fc), (0x6ff, 0x6ff), (0x710, 0x710),
  (0x712, 0x72f), (0x74d, 0x7a5), (0x7b1, 0x7b1), (0x7c0, 0x7ea),
  (0x7f4, 0x7f5), (0x7fa, 0x7fa), (0x800, 0x815), (0x81a, 0x81a),
  (0x824, 0x824), (0x828, 0x828), (0x840, 0x858), (0x860, 0x86a),
  (0x870, 0x887), (0x889, 0x88e), (0x8a0, 0x8c9), (0x904, 0x939),
  (0x93d, 0x93d), (0x950, 0x950), (0x958, 0x961), (0x966, 0x96f),
  (0x971, 0x980), (0x985, 0x98c), (0x98f, 0x990), (0x993, 0x9a8),
  (0x9aa, 0x9b0), (0x9b2, 0x9b2), (0x9b6, 0x9b9), (0x9bd, 0x9bd),
  (0x9ce, 0x9ce), (0x9dc, 0x9dd), (0x9df, 0x9e1), (0x9e6, 0x9f1),
  (0x9f4, 0x9f9), (0x9fc, 0x9fc), (0xa05, 0xa0a), (0xa0f, 0xa10),
  (0xa13, 0xa28), (0xa2a, 0xa30), (0xa32, 0xa33), (0xa35, 0xa36),
  (0xa38, 0xa39), (0xa59, 0xa5c), (0xa5e, 0xa5e), (0xa66, 0xa6f),
  (0xa72, 0xa74), (0xa85, 0xa8d), (0xa8f, 0xa91), (0xa93, 0xaa8),
  (0xaaa, 0xab0), (0xab2, 0xab3), (0xab5, 0xab9), (0xabd, 0xabd),
  (0xad0, 0xad0), (0xae0, 0xae1), (0xae6, 0xaef), (0xaf9, 0xaf9),
  (0xb05, 0xb0c), (0xb0f, 0xb10), (0xb13, 0xb28), (0xb2a, 0xb30),
  (0xb32, 0xb33), (0xb35, 0xb39), (0xb3d, 0xb3d), (0xb5c, 0xb5d),
  (0xb5f, 0xb61), (0xb66, 0xb6f), (0xb71, 0xb77), (0xb83, 0xb83),
  (0xb85, 0xb8a), (0xb8e, 0xb90), (0xb92, 0xb95), (0xb99, 0xb9a),
  (0xb9c, 0xb9c), (0xb9e, 0xb9f), (0xba3, 0xba4), (0xba8, 0xbaa),
  (0xbae, 0xbb9), (0xbd0, 0xbd0), (0xbe6, 0xbf2), (0xc05, 0xc0c),
  (0xc0e, 0xc10), (0xc12, 0xc28), (0xc2a, 0xc39), (0xc3d, 0xc3d),
  (0xc58, 0xc5a), (0xc5d, 0xc5d), (0xc60, 0xc61), (0xc66, 0xc6f),
  (0xc78, 0xc7e), (0xc80, 0xc80), (0xc85, 0xc8c), (0xc8e, 0xc90),
  (0xc92, 0xca8), (0xcaa, 0xcb3), (0xcb5, 0xcb9), (0xcbd, 0xcbd),
  (0xcdd, 0xcde), (0xce0, 0xce1), (0xce6, 0xcef), (0xcf1, 0xcf2),
  (0xd04, 0xd0c), (0xd0e, 0xd10), (0xd12, 0xd3a), (0xd3d, 0xd3d),
  (0xd4e, 0xd4e), (0xd54, 0xd56), (0xd58, 0xd61), (0xd66, 0xd78),
  (0xd7a, 0xd7f), (0xd85, 0xd96), (0xd9a, 0xdb1), (0xdb3, 0xdbb),
  (0xdbd, 0xdbd), (0xdc0, 0xdc6), (0xde6, 0xdef), (0xe01, 0xe30),
  (0xe32, 0xe33), (0xe40, 0xe46), (0xe50, 0xe59), (0xe81, 0xe82),
  (0xe84, 0xe84), (0xe86, 0xe8a), (0xe8c, 0xea3), (0xea5, 0xea5),
  (0xea7, 0xeb0), (0xeb2, 0xeb3), (0xebd, 0xebd), (0xec0, 0xec4),
  (0xec6, 0xec6), (0xed0, 0xed9), (0xedc, 0xedf), (0xf00, 0xf00),
  (0xf20, 0xf33), (0xf40, 0xf47), (0xf49, 0xf6c), (0xf88, 0xf8c),
  (0x1000, 0x102a), (0x103f, 0x1049), (0x1050, 0x1055), (0x105a, 0x105d),
  (0x1061, 0x1061), (0x1065, 0x1066), (0x106e, 0x1070), (0x1075, 0x1081),
  (0x108e, 0x108e), (0x1090, 0x1099), (0x10a0, 0x10c5), (0x10c7, 0x10c7),
  (0x10cd, 0x10cd), (0x10d0, 0x10fa), (0x10fc, 0x1248), (0x124a, 0x124d),
  (0x1250, 0x1256), (0x1258, 0x1258), (0x125a, 0x125d), (0x1260, 0x1288),
  (0x128a, 0x128d), (0x1290, 0x12b0), (0x12b2, 0x12b5), (0x12b8, 0x12be),
  (0x12c0, 0x12c0), (0x12c2, 0x12c5), (0x12c8, 0x12d6), (0x12d8, 0x1310),
  (0x1312, 0x1315), (0x1318, 0x135a), (0x1369, 0x137c), (0x1380, 0x138f),
  (0x13a0, 0x13f5), (0x13f8, 0x13fd), (0x1401, 0x166c), (0x166f, 0x167f),
  (0x1681, 0x169a), (0x16a0, 0x16ea), (0x16ee, 0x16f8), (0x1700, 0x1711),
  (0x171f, 0x1731), (0x1740, 0x1751), (0x1760, 0x176c), (0x176e, 0x1770),
  (0x1780, 0x17b3), (0x17d7, 0x17d7), (0x17dc, 0x17dc), (0x17e0, 0x17e9),
  (0x17f0, 0x17f9), (0x1810, 0x1819), (0x1820, 0x1878), (0x1880, 0x1884),
  (0x1887, 0x18a8), (0x18aa, 0x18aa), (0x18b0, 0x18f5), (0x1900, 0x191e),
  (0x1946, 0x196d), (0x1970, 0x1974), (0x1980, 0x19ab), (0x19b0, 0x19c9),
  (0x19d0, 0x19da), (0x1a00, 0x1a16), (0x1a20, 0x1a54), (0x1a80, 0x1a89),
  (0x1a90, 0x1a99), (0x1aa7, 0x1aa7), (0x1b05, 0x1b33), (0x1b45, 0x1b4c),
  (0x1b50, 0x1b59), (0x1b83, 0x1ba0), (0x1bae, 0x1be5), (0x1c00, 0x1c23),
  (0x1c40, 0x1c49), (0x1c4d, 0x1c7d), (0x1c80, 0x1c88), (0x1c90, 0x1cba),
  (0x1cbd, 0x1cbf), (0x1ce9, 0x1cec), (0x1cee, 0x1cf3), (0x1cf5, 0x1cf6),
  (0x1cfa, 0x1cfa), (0x1d00, 0x1dbf), (0x1e00, 0x1f15), (0x1f18, 0x1f1d),
  (0x1f20, 0x1f45), (0x1f48, 0x1f4d), (0x1f50, 0x1f57), (0x1f59, 0x1f59),
  (0x1f5b, 0x1f5b), (0x1f5d, 0x1f5d), (0x1f5f, 0x1f7d), (0x1f80, 0x1fb4),
  (0x1fb6, 0x1fbc), (0x1fbe, 0x1fbe), (0x1fc2, 0x1fc4), (0x1fc6, 0x1fcc),
  (0x1fd0, 0x1fd3), (0x1fd6, 0x1fdb), (0x1fe0, 0x1fec), (0x1ff2, 0x1ff4),
  (0x1ff6, 0x1ffc), (0x2070, 0x2071), (0x2074, 0x2079), (0x207f, 0x2089),
  (0x2090, 0x209c), (0x2102, 0x2102), (0x2107, 0x2107), (0x210a, 0x2113),
  (0x2115, 0x2115), (0x2119, 0x211d), (0x2124, 0x2124), (0x2126, 0x2126),
  (0x2128, 0x2128), (0x212a, 0x212d), (0x212f, 0x2139), (0x213c, 0x213f),
  (0x2145, 0x2149), (0x214e, 0x214e), (0x2150, 0x2189), (0x2460, 0x249b),
  (0x24ea, 0x24ff), (0x2776, 0x2793), (0x2c00, 0x2ce4), (0x2ceb, 0x2cee),
  (0x2cf2, 0x2cf3), (0x2cfd, 0x2cfd), (0x2d00, 0x2d25), (0x2d27, 0x2d27),
  (0x2d2d, 0x2d2d), (0x2d30, 0x2d67), (0x2d6f, 0x2d6f), (0x2d80, 0x2d96),
  (0x2da0, 0x2da6), (0x2da8, 0x2dae), (0x2db0, 0x2db6), (0x2db8, 0x2dbe),
  (0x2dc0, 0x2dc6), (0x2dc8, 0x2dce), (0x2dd0, 0x2dd6), (0x2dd8, 0x2dde),
  (0x2e2f, 0x2e2f), (0x3005, 0x3007), (0x3021, 0x3029), (0x3031, 0x3035),
  (0x3038, 0x303c), (0x3041, 0x3096), (0x309d, 0x309f), (0x30a1, 0x30fa),
  (0x30fc, 0x30ff), (0x3105, 0x312f), (0x3131, 0x318e), (0x3192, 0x3195),
  (0x31a0, 0x31bf), (0x31f0, 0x31ff), (0x3220, 0x3229), (0x3248, 0x324f),
  (0x3251, 0x325f), (0x3280, 0x3289), (0x32b1, 0x32bf), (0x3400, 0x4dbf),
  (0x4e00, 0xa48c), (0xa4d0, 0xa4fd), (0xa500, 0xa60c), (0xa610, 0xa62b),
  (0xa640, 0xa66e), (0xa67f, 0xa69d), (0xa6a0, 0xa6ef), (0xa717, 0xa71f),
  (0xa722, 0xa788), (0xa78b, 0xa7ca), (0xa7d0, 0xa7d1), (0xa7d3, 0xa7d3),
  (0xa7d5, 0xa7d9), (0xa7f2, 0xa801), (0xa803, 0xa805), (0xa807, 0xa80a),
  (0xa80c, 0xa822), (0xa830, 0xa835), (0xa840, 0xa873), (0xa882, 0xa8b3),
  (0xa8d0, 0xa8d9), (0xa8f2, 0xa8f7), (0xa8fb, 0xa8fb), (0xa8fd, 0xa8fe),
  (0xa900, 0xa925), (0xa930, 0xa946), (0xa960, 0xa97c), (0xa984, 0xa9b2),
  (0xa9cf, 0xa9d9), (0xa9e0, 0xa9e4), (0xa9e6, 0xa9fe), (0xaa00, 0xaa28),
  (0xaa40, 0xaa42), (0xaa44, 0xaa4b), (0xaa50, 0xaa59), (0xaa60, 0xaa76),
  (0xaa7a, 0xaa7a), (0xaa7e, 0xaaaf), (0xaab1, 0xaab1), (0xaab5, 0xaab6),
  (0xaab9, 0xaabd), (0xaac0, 0xaac0), (0xaac2, 0xaac2), (0xaadb, 0xaadd),
  (0xaae0, 0xaaea), (0xaaf2, 0xaaf4), (0xab01, 0xab06), (0xab09, 0xab0e),
  (0xab11, 0xab16), (0xab20, 0xab26), (0xab28, 0xab2e), (0xab30, 0xab5a),
  (0xab5c, 0xab69), (0xab70, 0xabe2), (0xabf0, 0xabf9), (0xac00, 0xd7a3),
  (0xd7b0, 0xd7c6), (0xd7cb, 0xd7fb), (0xf900, 0xfa6d), (0xfa70, 0xfad9),
  (0xfb00, 0xfb06), (0xfb13, 0xfb17), (0xfb1d, 0xfb1d), (0xfb1f, 0xfb28),
  (0xfb2a, 0xfb36), (0xfb38, 0xfb3c), (0xfb3e, 0xfb3e), (0xfb40, 0xfb41),
  (0xfb43, 0xfb44), (0xfb46, 0xfbb1), (0xfbd3, 0xfd3d), (0xfd50, 0xfd8f),
  (0xfd92, 0xfdc7), (0xfdf0, 0xfdfb), (0xfe70, 0xfe74), (0xfe76, 0xfefc),
  (0xff10, 0xff19), (0xff21, 0xff3a), (0xff41, 0xff5a), (0xff66, 0xffbe),
  (0xffc2, 0xffc7), (0xffca, 0xffcf), (0xffd2, 0xffd7), (0xffda, 0xffdc),
  (0x10000, 0x1000b), (0x1000d, 0x10026), (0x10028, 0x1003a), (0x1003c, 0x1003d),
  (0x1003f, 0x1004d), (0x10050, 0x1005d), (0x10080, 0x100fa), (0x10107, 0x10133),
  (0x10140, 0x10178), (0x1018a, 0x1018b), (0x10280, 0x1029c), (0x102a0, 0x102d0),
  (0x102e1, 0x102fb), (0x10300, 0x10323), (0x1032d, 0x1034a), (0x10350, 0x10375),
  (0x10380, 0x1039d), (0x103a0, 0x103c3), (0x103c8, 0x103cf), (0x103d1, 0x103d5),
  (0x10400, 0x1049d), (0x104a0, 0x104a9), (0x104b0, 0x104d3), (0x104d8, 0x104fb),
  (0x10500, 0x10527), (0x10530, 0x10563), (0x10570, 0x1057a), (0x1057c, 0x1058a),
  (0x1058c, 0x10592), (0x10594, 0x10595), (0x10597, 0x105a1), (0x105a3, 0x105b1),
  (0x105b3, 0x105b9), (0x105bb, 0x105bc), (0x10600, 0x10736), (0x10740, 0x10755),
  (0x10760, 0x10767), (0x10780, 0x10785), (0x10787, 0x107b0), (0x107b2, 0x107ba),
  (0x10800, 0x10805), (0x10808, 0x10808), (0x1080a, 0x10835), (0x10837, 0x10838),
  (0x1083c, 0x1083c), (0x1083f, 0x10855), (0x10858, 0x10876), (0x10879, 0x1089e),
  (0x108a7, 0x108af), (0x108e0, 0x108f2), (0x108f4, 0x108f5), (0x108fb, 0x1091b),
  (0x10920, 0x10939), (0x10980, 0x109b7), (0x109bc, 0x109cf), (0x109d2, 0x10a00),
  (0x10a10, 0x10a13), (0x10a15, 0x10a17), (0x10a19, 0x10a35), (0x10a40, 0x10a48),
  (0x10a60, 0x10a7e), (0x10a80, 0x10a9f), (0x10ac0, 0x10ac7), (0x10ac9, 0x10ae4),
  (0x10aeb, 0x10aef), (0x10b00, 0x10b35), (0x10b40, 0x10b55), (0x10b58, 0x10b72),
  (0x10b78, 0x10b91), (0x10ba9, 0x10baf), (0x10c00, 0x10c48), (0x10c80, 0x10cb2),
  (0x10cc0, 0x10cf2), (0x10cfa, 0x10d23), (0x10d30, 0x10d39), (0x10e60, 0x10e7e),
  (0x10e80, 0x10ea9), (0x10eb0, 0x10eb1), (0x10f00, 0x10f27), (0x10f30, 0x10f45),
  (0x10f51, 0x10f54), (0x10f70, 0x10f81), (0x10fb0, 0x10fcb), (0x10fe0, 0x10ff6),
  (0x11003, 0x11037), (0x11052, 0x1106f), (0x11071, 0x11072), (0x11075, 0x11075),
  (0x11083, 0x110af), (0x110d0, 0x110e8), (0x110f0, 0x110f9), (0x11103, 0x11126),
  (0x11136, 0x1113f), (0x11144, 0x11144), (0x11147, 0x11147), (0x11150, 0x11172),
  (0x11176, 0x11176), (0x11183, 0x111b2), (0x111c1, 0x111c4), (0x111d0, 0x111da),
  (0x111dc, 0x111dc), (0x111e1, 0x111f4), (0x11200, 0x11211), (0x11213, 0x1122b),
  (0x11280, 0x11286), (0x11288, 0x11288), (0x1128a, 0x1128d), (0x1128f, 0x1129d),
  (0x1129f, 0x112a8), (0x112b0, 0x112de), (0x112f0, 0x112f9), (0x11305, 0x1130c),
  (0x1130f, 0x11310), (0x11313, 0x11328), (0x1132a, 0x11330), (0x11332, 0x11333),
  (0x11335, 0x11339), (0x1133d, 0x1133d), (0x11350, 0x11350), (0x1135d, 0x11361),
  (0x11400, 0x11434), (0x11447, 0x1144a), (0x11450, 0x11459), (0x1145f, 0x11461),
  (0x11480, 0x114af), (0x114c4, 0x114c5), (0x114c7, 0x114c7), (0x114d0, 0x114d9),
  (0x11580, 0x115ae), (0x115d8, 0x115db), (0x11600, 0x1162f), (0x11644, 0x11644),
  (0x11650, 0x11659), (0x11680, 0x116aa), (0x116b8, 0x116b8), (0x116c0, 0x116c9),
  (0x11700, 0x1171a), (0x11730, 0x1173b), (0x11740, 0x11746), (0x11800, 0x1182b),
  (0x118a0, 0x118f2), (0x118ff, 0x11906), (0x11909, 0x11909), (0x1190c, 0x11913),
  (0x11915, 0x11916), (0x11918, 0x1192f), (0x1193f, 0x1193f), (0x11941, 0x11941),
  (0x11950, 0x11959), (0x119a0, 0x119a7), (0x119aa, 0x119d0), (0x119e1, 0x119e1),
  (0x119e3, 0x119e3), (0x11a00, 0x11a00), (0x11a0b, 0x11a32), (0x11a3a, 0x11a3a),
  (0x11a50, 0x11a50), (0x11a5c, 0x11a89), (0x11a9d, 0x11a9d), (0x11ab0, 0x11af8),
  (0x11c00, 0x11c08), (0x11c0a, 0x11c2e), (0x11c40, 0x11c40), (0x11c50, 0x11c6c),
  (0x11c72, 0x11c8f), (0x11d00, 0x11d06), (0x11d08, 0x11d09), (0x11d0b, 0x11d30),
  (0x11d46, 0x11d46), (0x11d50, 0x11d59), (0x11d60, 0x11d65), (0x11d67, 0x11d68),
  (0x11d6a, 0x11d89), (0x11d98, 0x11d98), (0x11da0, 0x11da9), (0x11ee0, 0x11ef2),
  (0x11fb0, 0x11fb0), (0x11fc0, 0x11fd4), (0x12000, 0x12399), (0x12400, 0x1246e),
  (0x12480, 0x12543), (0x12f90, 0x12ff0), (0x13000, 0x1342e), (0x14400, 0x14646),
  (0x16800, 0x16a38), (0x16a40, 0x16a5e), (0x16a60, 0x16a69), (0x16a70, 0x16abe),
  (0x16ac0, 0x16ac9), (0x16ad0, 0x16aed), (0x16b00, 0x16b2f), (0x16b40, 0x16b43),
  (0x16b50, 0x16b59), (0x16b5b, 0x16b61), (0x16b63, 0x16b77), (0x16b7d, 0x16b8f),
  (0x16e40, 0x16e96), (0x16f00, 0x16f4a), (0x16f50, 0x16f50), (0x16f93, 0x16f9f),
  (0x16fe0, 0x16fe1), (0x16fe3, 0x16fe3), (0x17000, 0x187f7), (0x18800, 0x18cd5),
  (0x18d00, 0x18d08), (0x1aff0, 0x1aff3), (0x1aff5, 0x1affb), (0x1affd, 0x1affe),
  (0x1b000, 0x1b122), (0x1b150, 0x1b152), (0x1b164, 0x1b167), (0x1b170, 0x1b2fb),
  (0x1bc00, 0x1bc6a), (0x1bc70, 0x1bc7c), (0x1bc80, 0x1bc88), (0x1bc90, 0x1bc99),
  (0x1d2e0, 0x1d2f3), (0x1d360, 0x1d378), (0x1d400, 0x1d454), (0x1d456, 0x1d49c),
  (0x1d49e, 0x1d49f), (0x1d4a2, 0x1d4a2), (0x1d4a5, 0x1d4a6), (0x1d4a9, 0x1d4ac),
  (0x1d4ae, 0x1d4b9), (0x1d4bb, 0x1d4bb), (0x1d4bd, 0x1d4c3), (0x1d4c5, 0x1d505),
  (0x1d507, 0x1d50a), (0x1d50d, 0x1d514), (0x1d516, 0x1d51c), (0x1d51e, 0x1d539),
  (0x1d53b, 0x1d53e), (0x1d540, 0x1d544), (0x1d546, 0x1d546), (0x1d54a, 0x1d550),
  (0x1d552, 0x1d6a5), (0x1d6a8, 0x1d6c0), (0x1d6c2, 0x1d6da), (0x1d6dc, 0x1d6fa),
  (0x1d6fc, 0x1d714), (0x1d716, 0x1d734), (0x1d736, 0x1d74e), (0x1d750, 0x1d76e),
  (0x1d770, 0x1d788), (0x1d78a, 0x1d7a8), (0x1d7aa, 0x1d7c2), (0x1d7c4, 0x1d7cb),
  (0x1d7ce, 0x1d7ff), (0x1df00, 0x1df1e), (0x1e100, 0x1e12c), (0x1e137, 0x1e13d),
  (0x1e140, 0x1e149), (0x1e14e, 0x1e14e), (0x1e290, 0x1e2ad), (0x1e2c0, 0x1e2eb),
  (0x1e2f0, 0x1e2f9), (0x1e7e0, 0x1e7e6), (0x1e7e8, 0x1e7eb), (0x1e7ed, 0x1e7ee),
  (0x1e7f0, 0x1e7fe), (0x1e800, 0x1e8c4), (0x1e8c7, 0x1e8cf), (0x1e900, 0x1e943),
  (0x1e94b, 0x1e94b), (0x1e950, 0x1e959), (0x1ec71, 0x1ecab), (0x1ecad, 0x1ecaf),
  (0x1ecb1, 0x1ecb4), (0x1ed01, 0x1ed2d), (0x1ed2f, 0x1ed3d), (0x1ee00, 0x1ee03),
  (0x1ee05, 0x1ee1f), (0x1ee21, 0x1ee22), (0x1ee24, 0x1ee24), (0x1ee27, 0x1ee27),
  (0x1ee29, 0x1ee32), (0x1ee34, 0x1ee37), (0x1ee39, 0x1ee39), (0x1ee3b, 0x1ee3b),
  (0x1ee42, 0x1ee42), (0x1ee47, 0x1ee47), (0x1ee49, 0x1ee49), (0x1ee4b, 0x1ee4b),
  (0x1ee4d, 0x1ee4f), (0x1ee51, 0x1ee52), (0x1ee54, 0x1ee54), (0x1ee57, 0x1ee57),
  (0x1ee59, 0x1ee59), (0x1ee5b, 0x1ee5b), (0x1ee5d, 0x1ee5d), (0x1ee5f, 0x1ee5f),
  (0x1ee61, 0x1ee62), (0x1ee64, 0x1ee64), (0x1ee67, 0x1ee6a), (0x1ee6c, 0x1ee72),
  (0x1ee74, 0x1ee77), (0x1ee79, 0x1ee7c), (0x1ee7e, 0x1ee7e), (0x1ee80, 0x1ee89),
  (0x1ee8b, 0x1ee9b), (0x1eea1, 0x1eea3), (0x1eea5, 0x1eea9), (0x1eeab, 0x1eebb),
  (0x1f100, 0x1f10c), (0x1fbf0, 0x1fbf9), (0x20000, 0x2a6df), (0x2a700, 0x2b738),
  (0x2b740, 0x2b81d), (0x2b820, 0x2cea1), (0x2ceb0, 0x2ebe0), (0x2f800, 0x2fa1d),
  (0x30000, 0x3134a)]
/-- Python's Unicode-aware `str.isalnum` (used at `main.py` line 53): a
character is alphanumeric exactly when its code point falls in one of the
`alnumRanges`. -/
def pyIsAlnum (c : Char) : Bool :=
  alnumRanges.any (fun r => r.1 ≤ c.toNat && c.toNat ≤ r.2)

/-- The permitted punctuation of the non-standard-symbol check: the
characters of the Python literal `' .,!?;:\'"—–-'` (space, period, comma,
exclamation mark, question mark, semicolon, colon, apostrophe,
double-quote, em dash, en dash, hyphen). -/
def permittedPunct : List Char :=
  [' ', '.', ',', '!', '?', ';', ':', '\'', '"', '—', '–', '-']

/-- Length of the text after stripping leading/trailing whitespace
(`len(text.strip())`, `main.py` line 44). -/
def trimmedLen (t : List Char) : Nat := (pyStrip t).length

/-- The repeated-character loop of `is_legitimate_story` (`main.py`
lines 48–50): some character of the text occurs in more than 30% of the
text (`text.count(char) > len(text) * 0.3`, embedded as the equivalent
exact comparison `10 * count > 3 * len`). -/
def repetitionExceeded (t : List Char) : Bool :=
  t.any (fun c => 3 * t.length < 10 * t.count c)

/-- The symbol count of `is_legitimate_story` (`main.py` line 53): number
of characters that are neither alphanumeric nor permitted punctuation. -/
def non_alpha (t : List Char) : Nat :=
  (t.filter (fun c => !(pyIsAlnum c) && !(permittedPunct.contains c))).length

/-- The symbol test of `is_legitimate_story` (`main.py` line 54):
`non_alpha > len(text) * 0.2`, embedded as `5 * non_alpha > len`. -/
def symbolsExceeded (t : List Char) : Bool :=
  t.length < 5 * non_alpha t

/-- Number of ASCII vowels contributed by one character of `word.lower()`
(`main.py` line 62).  Python's `str.lower()` maps `A`–`Z` to `a`–`z`; the
single code point anywhere in Unicode whose lowering otherwise introduces
a character of `'aeiou'` is `İ` (U+0130), whose lowercase is `i` followed
by U+0307 and so contributes one vowel.  Every other character lowers to
characters outside `'aeiou'` exactly when its ASCII lowering is outside
`'aeiou'` (exhaustively checked against the Unicode 14.0 case mappings of
CPython 3.11). -/
def vowelContribution (c : Char) : Nat :=
  if c.toNat = 0x130 then 1
  else if ['a', 'e', 'i', 'o', 'u'].contains c.toLower then 1 else 0

/-- Vowel count of a word (`main.py` line 62): characters of the lowered
word that are in `'aeiou'`. -/
def vowelCount (w : List Char) : Nat :=
  (w.map vowelContribution).sum

/-- A gibberish word (`main.py` line 63): longer than 8 characters with no
vowels. -/
def isGibberishWord (w : List Char) : Bool :=
  decide (8 < w.length) && decide (vowelCount w = 0)

/-- The gibberish-word count of `is_legitimate_story` (`main.py`
lines 58–64). -/
def gibberish_count (t : List Char) : Nat :=
  ((pySplit t).filter isGibberishWord).length

/-- The gibberish test of `is_legitimate_story` (`main.py` line 66):
`gibberish_count > len(words) * 0.3`, embedded as
`10 * gibberish_count > 3 * len(words)`. -/
def gibberishExceeded (t : List Char) : Bool :=
  3 * (pySplit t).length < 10 * gibberish_count t

/-- `is_legitimate_story` (`main.py` lines 38–69): the four sequential
early-return checks of the source, in source order. -/
def is_legitimate_story (t : List Char) : Bool :=
  if trimmedLen t < 10 then false
  else if repetitionExceeded t then false
  else if symbolsExceeded t then false
  else if gibberishExceeded t then false
  else true

/-- Rejection reason codes observable from `create_story`: the source
produces exactly two distinct rejection details, the profanity message
(`main.py` lines 140–144) and the generic spam message (lines 146–151). -/
inductive Reason where
  | profanity
  | spammy
deriving DecidableEq, Repr

/-- Verdict of the acceptance pipeline. -/
inductive Verdict where
  | accepted
  | rejected (reason : Reason)
deriving DecidableEq, Repr

/-- The acceptance pipeline of `create_story` (`main.py` lines 139–151):
the profanity gate (delegated to the external `better_profanity`
collaborator, modelled as the predicate argument `containsProfanity`)
followed by `is_legitimate_story`.  Category validation is a precondition
handled before the pipeline and is modelled at the endpoint level. -/
def evaluate (containsProfanity : List Char → Bool) (t : List Char) : Verdict :=
  if containsProfanity t then .rejected .profanity
  else if !(is_legitimate_story t) then .rejected .spammy
  else .accepted

/-- The individual checks of the pipeline, in the source's fixed order. -/
inductive Check where
  | profanityCheck
  | lengthCheck
  | repetitionCheck
  | symbolsCheck
  | gibberishCheck
deriving DecidableEq, Repr

/-- First failing check inside `is_legitimate_story`, following the
source's sequential early returns (`main.py` lines 43–67). -/
def legitFirstFailing (t : List Char) : Option Check :=
  if trimmedLen t < 10 then some .lengthCheck
  else if repetitionExceeded t then some .repetitionCheck
  else if symbolsExceeded t then some .symbolsCheck
  else if gibberishExceeded t then some .gibberishCheck
  else none

/-- First failing check of the whole pipeline: profanity first
(`main.py` line 140), then the legitimacy checks. -/
def firstFailing (containsProfanity : List Char → Bool) (t : List Char) :
    Option Check :=
  if containsProfanity t then some .profanityCheck
  else legitFirstFailing t

/-- The rejection reason each check produces: the profanity check yields
the profanity detail, every other check yields the one generic spam
detail. -/
def renderCheck : Check → Reason
  | .profanityCheck => .profanity
  | _ => .spammy

/-- The closed category set `ALLOWED_CATEGORIES` (`main.py` line 33). -/
def ALLOWED_CATEGORIES : List String :=
  ["Love", "Wisdom", "Regret", "Joy", "Pain", "Change", "Other"]

/-- The persisted `Story` row (`database.py` lines 20–31).  Timestamps are
modelled as naturals. -/
structure Story where
  id : Nat
  title : Option String
  author_name : Option String
  author_email : Option String
  story_text : List Char
  category : String
  approved : Bool
  created_at : Nat
  updated_at : Nat
deriving DecidableEq, Repr

/-- The request schema `StoryCreate` (`models.py` lines 5–11), after
pydantic validation. -/
structure StoryCreate where
  title : Option String
  author_name : Option String
  author_email : Option String
  story_text : List Char
  category : String
deriving DecidableEq, Repr

/-- Server-assigned identifier for a new row: the autoincrement primary
key of `database.py` line 23, modelled as one more than the largest id in
storage. -/
def nextId (db : List Story) : Nat :=
  db.foldr (fun s m => max s.id m) 0 + 1

/-- The row `create_story` persists (`main.py` lines 153–160): the
submission's fields with `approved = False` and server-assigned id and
timestamps. -/
def newStoryRow (sc : StoryCreate) (sid now : Nat) : Story :=
  ⟨sid, sc.title, sc.author_name, sc.author_email, sc.story_text,
    sc.category, false, now, now⟩

/-- The `POST /api/stories` endpoint `create_story` (`main.py`
lines 134–166): category validation, then the acceptance pipeline, then
persistence of the new row with `approved = False`.  On success it returns
the updated storage and the new story's id (the endpoint's response
carries `db_story.id`). -/
def create_story (containsProfanity : List Char → Bool) (db : List Story)
    (sc : StoryCreate) (now : Nat) : Except String (List Story × Nat) :=
  if !(ALLOWED_CATEGORIES.contains sc.category) then
    .error "Invalid category"
  else
    match evaluate containsProfanity sc.story_text with
    | .rejected .profanity =>
        .error "Your story contains inappropriate language. Please revise and resubmit."
    | .rejected .spammy =>
        .error "Your submission doesn't look like a real story. Please try again."
    | .accepted =>
        let sid := nextId db
        .ok (db ++ [newStoryRow sc sid now], sid)

/-- Insert a story into a list sorted by descending `created_at`
(models the `order_by(Story.created_at.desc())` of the read queries). -/
def insertByCreatedDesc (s : Story) : List Story → List Story
  | [] => [s]
  | x :: xs =>
    if x.created_at ≤ s.created_at then s :: x :: xs
    else x :: insertByCreatedDesc s xs

/-- Sort stories by descending creation time. -/
def sortByCreatedDesc (l : List Story) : List Story :=
  l.foldr insertByCreatedDesc []

/-- The `GET /api/stories` endpoint `get_public_stories` (`main.py`
lines 83–96): approved stories ordered by descending creation time,
optionally filtered by category.  A missing or empty category parameter is
falsy in the source and applies no filter; an invalid category is a 400
error. -/
def get_public_stories (db : List Story) (category : Option String) :
    Except String (List Story) :=
  let base := sortByCreatedDesc (db.filter (fun s => s.approved))
  match category with
  | none => .ok base
  | some c =>
    if c = "" then .ok base
    else if !(ALLOWED_CATEGORIES.contains c) then .error "Invalid category"
    else .ok (base.filter (fun s => s.category = c))

/-- The `GET /api/stories/{story_id}` endpoint `get_story` (`main.py`
lines 119–130): first story matching the id with `approved == True`, or a
404. -/
def get_story (db : List Story) (sid : Nat) : Option Story :=
  (db.filter (fun s => s.id = sid && s.approved)).head?

/-- The `GET /api/stories/random` endpoint `get_random_story` (`main.py`
lines 98–117): `random.choice` over the approved stories, modelled by an
arbitrary oracle index `k`; `none` is the 404 on an empty approved set. -/
def get_random_story (db : List Story) (k : Nat) : Option Story :=
  let stories := db.filter (fun s => s.approved)
  stories.get? (k % stories.length)

/-- Apply `f` to the first element satisfying `p`, leaving everything else
in place: the effect of mutating the result of `query(...).first()` inside
a SQLAlchemy session. -/
def updateFirst (f : Story → Story) (p : Story → Bool) :
    List Story → List Story
  | [] => []
  | s :: ss => if p s then f s :: ss else s :: updateFirst f p ss

/-- The field update `approve_story` performs on the found row
(`main.py` lines 186–187): set `approved = True` and `updated_at` to the
current time; every other field is untouched. -/
def approveUpdate (now : Nat) (s : Story) : Story :=
  ⟨s.id, s.title, s.author_name, s.author_email, s.story_text, s.category,
    true, s.created_at, now⟩

/-- The `PATCH /api/admin/stories/{story_id}/approve` endpoint
`approve_story` (`main.py` lines 179–190): 404 when no story has the id,
otherwise the first matching story gets `approved = True` and a fresh
`updated_at`. -/
def approve_story (db : List Story) (sid : Nat) (now : Nat) :
    Except String (List Story) :=
  if db.any (fun s => s.id = sid) then
    .ok (updateFirst (approveUpdate now) (fun s => s.id = sid) db)
  else .error "Story not found"

/-! ### Pipeline lemmas -/

theorem repetition_ok_iff (t : List Char) :
    repetitionExceeded t = false ↔ ∀ c ∈ t, 10 * t.count c ≤ 3 * t.length := by
  simp [repetitionExceeded, List.any_eq_true, not_lt]

theorem symbols_ok_iff (t : List Char) :
    symbolsExceeded t = false ↔ 5 * non_alpha t ≤ t.length := by
  simp [symbolsExceeded, not_lt]

theorem gibberish_ok_iff (t : List Char) :
    gibberishExceeded t = false ↔
      10 * gibberish_count t ≤ 3 * (pySplit t).length := by
  simp [gibberishExceeded, not_lt]

/-- Fidelity check: a spaced CJK story text is accepted — CJK characters
are alphanumeric for the symbol check and the remaining checks pass. -/
theorem cjk_story_accepted :
    evaluate (fun _ => false) "孩子 平安 快乐 平安喜乐".toList = .accepted := by
  decide

/-- Fidelity check: NO-BREAK SPACE (U+00A0) is whitespace for the word
split, so this text is two words, the second a vowel-less 13-character
word; the gibberish check is the first to fail and the text is rejected. -/
theorem nbsp_gibberish_rejected :
    pySplit "aaaaaa XQZWRTPLMNBCD".toList =
      ["aaaaaa".toList, "XQZWRTPLMNBCD".toList] ∧
    legitFirstFailing "aaaaaa XQZWRTPLMNBCD".toList =
      some .gibberishCheck ∧
    evaluate (fun _ => false) "aaaaaa XQZWRTPLMNBCD".toList =
      .rejected .spammy := by
  decide

/-- Fidelity check: LINE SEPARATOR (U+2028) is stripped, so this
10-character text has trimmed length 9 and is rejected by the length
check. -/
theorem line_separator_stripped :
    trimmedLen "abcdefghi ".toList = 9 ∧
    legitFirstFailing "abcdefghi ".toList = some .lengthCheck ∧
    evaluate (fun _ => false) "abcdefghi ".toList =
      .rejected .spammy := by
  decide

/-- Fidelity check: `İ` (U+0130) lowers in Python to a string containing
an ASCII `i`, so a long word containing it has a vowel and is not
gibberish. -/
theorem dotted_capital_i_has_vowel :
    vowelCount "XQZWRTPİLM".toList = 1 ∧
    isGibberishWord "XQZWRTPİLM".toList = false := by
  decide

theorem is_legitimate_story_iff (t : List Char) :
    is_legitimate_story t = true ↔
      (10 ≤ trimmedLen t ∧ repetitionExceeded t = false ∧
        symbolsExceeded t = false ∧ gibberishExceeded t = false) := by
  unfold is_legitimate_story
  split_ifs with h1 h2 h3 h4 <;>
    simp_all [not_lt, le_of_not_lt]

theorem legitFirstFailing_none_iff (t : List Char) :
    legitFirstFailing t = none ↔ is_legitimate_story t = true := by
  unfold legitFirstFailing is_legitimate_story
  split_ifs <;> simp

theorem evaluate_render (p : List Char → Bool) (t : List Char) :
    evaluate p t =
      (match firstFailing p t with
        | none => Verdict.accepted
        | some c => Verdict.rejected (renderCheck c)) := by
  unfold evaluate firstFailing
  by_cases hp : p t = true
  · simp [hp, renderCheck]
  · simp only [Bool.not_eq_true] at hp
    simp only [hp, Bool.false_eq_true, if_false]
    by_cases hl : is_legitimate_story t = true
    · simp [hl, (legitFirstFailing_none_iff t).mpr hl]
    · simp only [Bool.not_eq_true] at hl
      simp only [hl, Bool.not_false, if_true]
      unfold legitFirstFailing
      unfold is_legitimate_story at hl
      split_ifs at hl ⊢ <;> simp_all [renderCheck]

theorem evaluate_accepted_iff (p : List Char → Bool) (t : List Char) :
    evaluate p t = .accepted ↔
      (p t = false ∧ 10 ≤ trimmedLen t ∧
        (∀ c ∈ t, 10 * t.count c ≤ 3 * t.length) ∧
        5 * non_alpha t ≤ t.length ∧
        10 * gibberish_count t ≤ 3 * (pySplit t).length) := by
  rw [← repetition_ok_iff, ← symbols_ok_iff, ← gibberish_ok_iff]
  unfold evaluate
  by_cases hp : p t = true
  · simp [hp]
  · simp only [Bool.not_eq_true] at hp
    simp only [hp, Bool.false_eq_true, if_false, true_and]
    by_cases hl : is_legitimate_story t = true
    · simp [hl, (is_legitimate_story_iff t).mp hl]
    · simp only [Bool.not_eq_true] at hl
      simp only [hl, Bool.not_false, if_true]
      constructor
      · intro h; exact absurd h (by simp)
      · intro h
        exact absurd ((is_legitimate_story_iff t).mpr h) (by simp [hl])

/-- C1: the pipeline accepts exactly when the text has no profane term,
its trimmed length is at least 10, no character occurs in more than 30% of
the characters, at most 20% of the characters are non-standard symbols,
and at most 30% of the whitespace-separated words are vowel-less words
longer than 8 characters; on rejection the reason is the one rendered from
the first failing check in the fixed order profanity, length, repetition,
symbols, gibberish. -/
theorem c1_evaluate_characterization (p : List Char → Bool) (t : List Char) :
    (evaluate p t = .accepted ↔
      (p t = false ∧ 10 ≤ trimmedLen t ∧
        (∀ c ∈ t, 10 * t.count c ≤ 3 * t.length) ∧
        5 * non_alpha t ≤ t.length ∧
        10 * gibberish_count t ≤ 3 * (pySplit t).length)) ∧
    evaluate p t =
      (match firstFailing p t with
        | none => Verdict.accepted
        | some c => Verdict.rejected (renderCheck c)) :=
  ⟨evaluate_accepted_iff p t, evaluate_render p t⟩

/-- C2 counterexample: a text of trimmed length 1 (no profanity) is
rejected with the same generic `spammy` reason that a repetition-spam text
receives — the code emits no distinct TooShort reason code. -/
theorem c2_counterexample :
    evaluate (fun _ => false) "a         ".toList =
      .rejected .spammy ∧
    evaluate (fun _ => false) "aaaaaaaaaaaaaaaaaaaa".toList =
      .rejected .spammy := by
  decide

/-- C2 (amended): a profanity-free text whose trimmed length is below 10
is rejected, but with the generic spam reason shared with the legitimacy
sub-checks; `create_story` produces no distinct TooShort code. -/
theorem c2_short_text_rejected_generic (p : List Char → Bool)
    (t : List Char) (hp : p t = false) (hshort : trimmedLen t < 10) :
    evaluate p t = .rejected .spammy := by
  unfold evaluate is_legitimate_story
  simp [hp, hshort]

/-- C2 witness: the amended claim at the concrete short input. -/
theorem c2_short_text_rejected_generic_witness :
    trimmedLen "a night   ".toList < 10 ∧
    evaluate (fun _ => false) "a night   ".toList = .rejected .spammy :=
  ⟨by decide,
    c2_short_text_rejected_generic (fun _ => false) "a night   ".toList
      rfl (by decide)⟩

/-- C3: whenever the profanity collaborator flags the text — the external
word list is case-insensitive, so this covers a listed term in any casing —
the pipeline rejects with the profanity reason, before any other check can
run. -/
theorem c3_profanity_precedence (p : List Char → Bool) (t : List Char)
    (hp : p t = true) : evaluate p t = .rejected .profanity := by
  unfold evaluate
  simp [hp]

/-- C3 witness: a flagged text that would otherwise pass every check is
still rejected with the profanity reason. -/
theorem c3_profanity_precedence_witness :
    (fun s : List Char => s.contains 'd')
        "Today I learned something important about my family.".toList
      = true ∧
    evaluate (fun s : List Char => s.contains 'd')
        "Today I learned something important about my family.".toList
      = .rejected .profanity :=
  ⟨by decide,
    c3_profanity_precedence _
      "Today I learned something important about my family.".toList
      (by decide)⟩

/-- C4: the thresholds are strict greater-than comparisons — a text where
every character's count is at most 30% of the length (equality allowed),
the symbol count is at most 20% and the gibberish-word count at most 30%
(with trimmed length at least 10 and no profanity) is accepted; in
particular a character sitting exactly at the 0.30 ratio does not cause
rejection. -/
theorem c4_thresholds_strict (p : List Char → Bool) (t : List Char)
    (hp : p t = false) (hlen : 10 ≤ trimmedLen t)
    (hrep : ∀ c ∈ t, 10 * t.count c ≤ 3 * t.length)
    (hsym : 5 * non_alpha t ≤ t.length)
    (hgib : 10 * gibberish_count t ≤ 3 * (pySplit t).length) :
    evaluate p t = .accepted :=
  (evaluate_accepted_iff p t).mpr ⟨hp, hlen, hrep, hsym, hgib⟩

/-- C4 witness: in `"aaabcdefgh"` the character `a` occurs exactly 3 times
in 10 characters — exactly the 0.30 ratio — and the text is accepted. -/
theorem c4_thresholds_strict_witness :
    10 * ("aaabcdefgh".toList.count 'a') = 3 * "aaabcdefgh".toList.length ∧
    evaluate (fun _ => false) "aaabcdefgh".toList = .accepted :=
  ⟨by decide,
    c4_thresholds_strict (fun _ => false) "aaabcdefgh".toList rfl
      (by decide) (by decide) (by decide) (by decide)⟩

/-- C5: the all-symbol input is rejected as spam: its length is 22, no
character exceeds the 30% repetition threshold (`!` occurs 4 times, every
other character 3 times), and the non-standard-symbol count is 18 (the
four `!` are permitted punctuation), which strictly exceeds 20% of 22, so
the symbol check is the first failing check. -/
theorem c5_symbol_spam_scenario :
    evaluate (fun _ => false) "!!!!###@@@$$$%%%^^^&&&".toList =
      .rejected .spammy ∧
    repetitionExceeded "!!!!###@@@$$$%%%^^^&&&".toList = false ∧
    non_alpha "!!!!###@@@$$$%%%^^^&&&".toList = 18 ∧
    "!!!!###@@@$$$%%%^^^&&&".toList.length = 22 ∧
    legitFirstFailing "!!!!###@@@$$$%%%^^^&&&".toList =
      some .symbolsCheck := by
  decide

/-- C6: the pipeline is deterministic and depends only on its inputs: two
invocations with the same text, under profanity configurations that agree
on that text, return the same verdict — the embedding of the source as a
pure total function reflects that the code reads no mutable state and
performs no I/O or randomness. -/
theorem c6_evaluate_deterministic (p q : List Char → Bool) (t : List Char)
    (h : p t = q t) : evaluate p t = evaluate q t := by
  unfold evaluate
  rw [h]

/-- C6 witness: two distinct profanity configurations agreeing on a
concrete text give the same verdict. -/
theorem c6_evaluate_deterministic_witness :
    ((fun _ : List Char => false)
        "Today I learned something important.".toList =
      (fun s : List Char => s.contains 'z')
        "Today I learned something important.".toList) ∧
    evaluate (fun _ : List Char => false)
        "Today I learned something important.".toList =
      evaluate (fun s : List Char => s.contains 'z')
        "Today I learned something important.".toList :=
  ⟨by decide,
    c6_evaluate_deterministic _ _
      "Today I learned something important.".toList (by decide)⟩

theorem splitAux_eq_nil (t : List Char) :
    ∀ acc, splitAux t acc = [] →
      acc = [] ∧ ∀ c ∈ t, pyIsSpace c = true := by
  induction t with
  | nil =>
    intro acc h
    cases acc with
    | nil => exact ⟨rfl, by simp⟩
    | cons a as => simp [splitAux] at h
  | cons c cs ih =>
    intro acc h
    unfold splitAux at h
    by_cases hc : pyIsSpace c = true
    · rw [if_pos hc] at h
      cases acc with
      | nil =>
        obtain ⟨-, hall⟩ := ih [] h
        refine ⟨rfl, ?_⟩
        intro x hx
        rcases List.mem_cons.mp hx with hx | hx
        · exact hx ▸ hc
        · exact hall x hx
      | cons a as => simp at h
    · rw [if_neg hc] at h
      obtain ⟨habs, -⟩ := ih (c :: acc) h
      simp at habs

theorem pyStrip_eq_nil_of_all_space (t : List Char)
    (h : ∀ c ∈ t, pyIsSpace c = true) : pyStrip t = [] := by
  unfold pyStrip
  have h1 : t.dropWhile pyIsSpace = [] :=
    List.dropWhile_eq_nil_iff.mpr h
  simp [h1]

/-- C8: on a text that splits into zero words, the gibberish comparison is
a multiplication, not a division — it evaluates safely to "not exceeded"
(zero words vacuously pass) — and such a text is all whitespace, so its
trimmed length is 0 and the pipeline already rejects it at the length
check, before the gibberish check is reached. -/
theorem c8_zero_words_guarded (t : List Char) (h : pySplit t = []) :
    gibberishExceeded t = false ∧ trimmedLen t = 0 ∧
    legitFirstFailing t = some .lengthCheck ∧
    is_legitimate_story t = false := by
  obtain ⟨-, hall⟩ := splitAux_eq_nil t [] h
  have hstrip : trimmedLen t = 0 := by
    simp [trimmedLen, pyStrip_eq_nil_of_all_space t hall]
  have hlt : trimmedLen t < 10 := by omega
  refine ⟨?_, hstrip, ?_, ?_⟩
  · simp [gibberishExceeded, gibberish_count, h]
  · unfold legitFirstFailing
    rw [if_pos hlt]
  · unfold is_legitimate_story
    rw [if_pos hlt]

/-- C8 witness: pure whitespace splits into zero words, passes the
gibberish comparison without faulting, and is rejected by the length
check. -/
theorem c8_zero_words_guarded_witness :
    pySplit "   ".toList = [] ∧
    (gibberishExceeded "   ".toList = false ∧
      trimmedLen "   ".toList = 0 ∧
      legitFirstFailing "   ".toList = some .lengthCheck ∧
      is_legitimate_story "   ".toList = false) :=
  ⟨by decide, c8_zero_words_guarded "   ".toList (by decide)⟩

/-- C10: the symbol check uses the Unicode-aware alphanumeric classifier,
so a text made only of (Unicode) letters or digits and permitted
punctuation has symbol count zero and passes the symbol check. -/
theorem c10_unicode_alnum_standard (t : List Char)
    (h : ∀ c ∈ t, pyIsAlnum c = true ∨ c ∈ permittedPunct) :
    non_alpha t = 0 ∧ symbolsExceeded t = false := by
  have hf :
      t.filter (fun c => !(pyIsAlnum c) && !(permittedPunct.contains c))
        = [] := by
    rw [List.filter_eq_nil_iff]
    intro c hc
    rcases h c hc with h1 | h1 <;> simp [h1]
  constructor
  · unfold non_alpha
    rw [hf]
    rfl
  · unfold symbolsExceeded non_alpha
    rw [hf]
    simp

/-- C10 witness: CJK, Arabic, Hebrew and Devanagari letters, Devanagari
and Arabic-Indic digits, fullwidth letters and digits, accented Latin and
Greek all count as standard characters for the symbol check. -/
theorem c10_unicode_alnum_standard_witness :
    (∀ c ∈ "孩子平安 مرحبا שלום नमसत १२३ ٣٤٥ ｆｕｌｌ１２３, café Ψυχή!".toList,
      pyIsAlnum c = true ∨ c ∈ permittedPunct) ∧
    (non_alpha "孩子平安 مرحبا שלום नमसत १२३ ٣٤٥ ｆｕｌｌ１２３, café Ψυχή!".toList = 0 ∧
      symbolsExceeded "孩子平安 مرحبا שלום नमसत १२३ ٣٤٥ ｆｕｌｌ１２３, café Ψυχή!".toList = false) :=
  ⟨by decide,
    c10_unicode_alnum_standard "孩子平安 مرحبا שלום नमसत १२३ ٣٤٥ ｆｕｌｌ１２３, café Ψυχή!".toList
      (by decide)⟩

/-! ### Storage lemmas -/

theorem mem_of_head?_eq_some {α : Type} {l : List α} {a : α}
    (h : l.head? = some a) : a ∈ l := by
  cases l with
  | nil => simp at h
  | cons x xs =>
    simp only [List.head?_cons, Option.some.injEq] at h
    rw [← h]
    exact List.mem_cons_self x xs

theorem mem_insertByCreatedDesc (s x : Story) (l : List Story) :
    x ∈ insertByCreatedDesc s l ↔ x = s ∨ x ∈ l := by
  induction l with
  | nil => simp [insertByCreatedDesc]
  | cons a as ih =>
    unfold insertByCreatedDesc
    split_ifs with hcmp
    · simp [List.mem_cons]
    · simp only [List.mem_cons, ih]
      tauto

theorem mem_sortByCreatedDesc (x : Story) (l : List Story) :
    x ∈ sortByCreatedDesc l ↔ x ∈ l := by
  induction l with
  | nil => simp [sortByCreatedDesc]
  | cons a as ih =>
    show x ∈ insertByCreatedDesc a (sortByCreatedDesc as) ↔ x ∈ a :: as
    rw [mem_insertByCreatedDesc, ih, List.mem_cons]

theorem get_public_stories_approved (db : List Story) (c : Option String)
    (l : List Story) (h : get_public_stories db c = .ok l) :
    ∀ s ∈ l, s.approved = true := by
  have base :
      ∀ s ∈ sortByCreatedDesc (db.filter (fun s => s.approved)),
        s.approved = true := by
    intro x hx
    exact (List.mem_filter.mp ((mem_sortByCreatedDesc x _).mp hx)).2
  unfold get_public_stories at h
  cases c with
  | none =>
    dsimp only at h
    simp only [Except.ok.injEq] at h
    exact h ▸ base
  | some cat =>
    dsimp only at h
    by_cases h0 : cat = ""
    · rw [if_pos h0] at h
      simp only [Except.ok.injEq] at h
      exact h ▸ base
    · rw [if_neg h0] at h
      split_ifs at h with hv
      simp only [Except.ok.injEq] at h
      intro s hs
      rw [← h] at hs
      exact base s (List.mem_filter.mp hs).1

theorem get_story_approved (db : List Story) (sid : Nat) (s : Story)
    (h : get_story db sid = some s) : s.approved = true := by
  unfold get_story at h
  have hmem := mem_of_head?_eq_some h
  have := (List.mem_filter.mp hmem).2
  exact (Bool.and_eq_true _ _).mp this |>.2

theorem get_random_story_approved (db : List Story) (k : Nat) (s : Story)
    (h : get_random_story db k = some s) : s.approved = true := by
  unfold get_random_story at h
  have hmem := List.get?_mem h
  exact (List.mem_filter.mp hmem).2

theorem id_le_fold_max (s : Story) :
    ∀ l : List Story, s ∈ l →
      s.id ≤ l.foldr (fun x m => max x.id m) 0 := by
  intro l
  induction l with
  | nil => intro hl; cases hl
  | cons a as ih =>
    intro hl
    rcases List.mem_cons.mp hl with h1 | h1
    · subst h1
      exact le_max_left _ _
    · exact le_trans (ih h1) (le_max_right _ _)

theorem id_lt_nextId (db : List Story) (s : Story) (hs : s ∈ db) :
    s.id < nextId db := by
  have := id_le_fold_max s db hs
  unfold nextId
  omega

theorem create_story_ok (p : List Char → Bool) (db : List Story)
    (sc : StoryCreate) (now : Nat) (db' : List Story) (nid : Nat)
    (h : create_story p db sc now = .ok (db', nid)) :
    db' = db ++ [newStoryRow sc nid now] ∧ nid = nextId db := by
  unfold create_story at h
  split_ifs at h with hcat
  cases hev : evaluate p sc.story_text with
  | accepted =>
    rw [hev] at h
    simp only [Except.ok.injEq, Prod.mk.injEq] at h
    exact ⟨by rw [← h.1, ← h.2], h.2.symm⟩
  | rejected r =>
    rw [hev] at h
    cases r <;> simp at h

/-- C7: a successful submission appends exactly one row, created with
`approved = False`; every story served by the public list, by-id and
random endpoints is approved; and the newly created story is not visible
through the by-id endpoint (its fresh id resolves to a 404 until an admin
approves it). -/
theorem c7_submissions_invisible_until_approved (p : List Char → Bool)
    (db : List Story) (sc : StoryCreate) (now : Nat) (db' : List Story)
    (nid : Nat) (h : create_story p db sc now = .ok (db', nid)) :
    db' = db ++ [newStoryRow sc nid now] ∧
    (newStoryRow sc nid now).approved = false ∧
    (∀ dbx c l, get_public_stories dbx c = .ok l →
      ∀ s ∈ l, s.approved = true) ∧
    (∀ dbx sid s, get_story dbx sid = some s → s.approved = true) ∧
    (∀ dbx k s, get_random_story dbx k = some s → s.approved = true) ∧
    get_story db' nid = none := by
  obtain ⟨hdb, hnid⟩ := create_story_ok p db sc now db' nid h
  refine ⟨hdb, rfl, get_public_stories_approved, get_story_approved,
    get_random_story_approved, ?_⟩
  unfold get_story
  have hfil :
      (db ++ [newStoryRow sc nid now]).filter
        (fun s => s.id = nid && s.approved) = [] := by
    rw [List.filter_eq_nil_iff]
    intro s hs
    rcases List.mem_append.mp hs with hmem | hmem
    · have hlt := id_lt_nextId db s hmem
      rw [← hnid] at hlt
      simp only [Bool.and_eq_true, decide_eq_true_eq, not_and]
      intro heq
      omega
    · have : s = newStoryRow sc nid now := by simpa using hmem
      subst this
      simp [newStoryRow]
  rw [hdb, hfil]
  rfl

/-- Sample submission used by the C7 witness. -/
def sampleSubmission : StoryCreate :=
  ⟨none, none, none,
    "Today I learned something important about my family and our past.".toList,
    "Wisdom"⟩

/-- C7 witness: submitting a valid story to an empty store persists it
unapproved with id 1, and it is not served by the by-id endpoint. -/
theorem c7_submissions_invisible_until_approved_witness :
    create_story (fun _ => false) [] sampleSubmission 5 =
      .ok ([newStoryRow sampleSubmission 1 5], 1) ∧
    ([newStoryRow sampleSubmission 1 5] =
        [] ++ [newStoryRow sampleSubmission 1 5] ∧
      (newStoryRow sampleSubmission 1 5).approved = false ∧
      (∀ dbx c l, get_public_stories dbx c = .ok l →
        ∀ s ∈ l, s.approved = true) ∧
      (∀ dbx sid s, get_story dbx sid = some s → s.approved = true) ∧
      (∀ dbx k s, get_random_story dbx k = some s → s.approved = true) ∧
      get_story [newStoryRow sampleSubmission 1 5] 1 = none) :=
  ⟨by rfl,
    c7_submissions_invisible_until_approved (fun _ => false) []
      sampleSubmission 5 [newStoryRow sampleSubmission 1 5] 1 (by rfl)⟩

theorem updateFirst_decomp (f : Story → Story) (p : Story → Bool) :
    ∀ db : List Story, db.any p = true →
      ∃ pre s post, db = pre ++ s :: post ∧ p s = true ∧
        (∀ x ∈ pre, p x = false) ∧
        updateFirst f p db = pre ++ f s :: post := by
  intro db
  induction db with
  | nil => intro hany; simp at hany
  | cons a as ih =>
    intro hany
    by_cases hpa : p a = true
    · refine ⟨[], a, as, rfl, hpa, by simp, ?_⟩
      unfold updateFirst
      rw [if_pos hpa]
      rfl
    · have has : as.any p = true := by
        rcases List.any_eq_true.mp hany with ⟨x, hx, hpx⟩
        rcases List.mem_cons.mp hx with h1 | h1
        · exact absurd (h1 ▸ hpx) hpa
        · exact List.any_eq_true.mpr ⟨x, h1, hpx⟩
      obtain ⟨pre, s, post, h1, h2, h3, h4⟩ := ih has
      refine ⟨a :: pre, s, post, by rw [h1]; rfl, h2, ?_, ?_⟩
      · intro x hx
        rcases List.mem_cons.mp hx with h5 | h5
        · exact h5 ▸ Bool.eq_false_iff.mpr hpa
        · exact h3 x h5
      · unfold updateFirst
        rw [if_neg hpa, h4]
        rfl

/-- C9: a successful approve operation decomposes storage as
`pre ++ story :: post`, returns `pre ++ updated :: post` with every other
row untouched, and the updated row differs from the original only in
`approved` (now `True`) and `updated_at` (now the current time): id,
title, author fields, text, category and `created_at` are unchanged. -/
theorem c9_approve_frame (db : List Story) (sid now : Nat)
    (db' : List Story) (h : approve_story db sid now = .ok db') :
    ∃ pre s post,
      db = pre ++ s :: post ∧
      db' = pre ++ approveUpdate now s :: post ∧
      (∀ x ∈ pre, x.id ≠ sid) ∧
      s.id = sid ∧
      (approveUpdate now s).approved = true ∧
      (approveUpdate now s).updated_at = now ∧
      (approveUpdate now s).id = s.id ∧
      (approveUpdate now s).title = s.title ∧
      (approveUpdate now s).author_name = s.author_name ∧
      (approveUpdate now s).author_email = s.author_email ∧
      (approveUpdate now s).story_text = s.story_text ∧
      (approveUpdate now s).category = s.category ∧
      (approveUpdate now s).created_at = s.created_at := by
  unfold approve_story at h
  split_ifs at h with hany
  simp only [Except.ok.injEq] at h
  obtain ⟨pre, s, post, h1, h2, h3, h4⟩ :=
    updateFirst_decomp (approveUpdate now) (fun s => s.id = sid) db hany
  refine ⟨pre, s, post, h1, by rw [← h, h4], ?_, ?_, rfl, rfl, rfl, rfl,
    rfl, rfl, rfl, rfl, rfl⟩
  · intro x hx
    have := h3 x hx
    simpa using this
  · simpa using h2

/-- First sample story for the C9 witness (already approved). -/
def storyA : Story :=
  ⟨1, none, none, none, "first story text".toList, "Love", true, 10, 10⟩

/-- Second sample story for the C9 witness (pending). -/
def storyB : Story :=
  ⟨2, some "t", some "n", some "e", "second story text".toList, "Joy",
    false, 20, 20⟩

/-- C9 witness: approving story 2 in a two-story store rewrites only that
story, exactly as the frame theorem describes. -/
theorem c9_approve_frame_witness :
    approve_story [storyA, storyB] 2 99 =
      .ok [storyA, approveUpdate 99 storyB] ∧
    (∃ pre s post,
      [storyA, storyB] = pre ++ s :: post ∧
      [storyA, approveUpdate 99 storyB] =
        pre ++ approveUpdate 99 s :: post ∧
      (∀ x ∈ pre, x.id ≠ 2) ∧
      s.id = 2 ∧
      (approveUpdate 99 s).approved = true ∧
      (approveUpdate 99 s).updated_at = 99 ∧
      (approveUpdate 99 s).id = s.id ∧
      (approveUpdate 99 s).title = s.title ∧
      (approveUpdate 99 s).author_name = s.author_name ∧
      (approveUpdate 99 s).author_email = s.author_email ∧
      (approveUpdate 99 s).story_text = s.story_text ∧
      (approveUpdate 99 s).category = s.category ∧
      (approveUpdate 99 s).created_at = s.created_at) :=
  ⟨by rfl,
    c9_approve_frame [storyA, storyB] 2 99
      [storyA, approveUpdate 99 storyB] (by rfl)⟩

end SWS
